import Mathlib

/-!
Shallow embedding of the typed message dispatch pipeline of `src/queue.ts`
(envelope data model, producer, router, processors, batch processing) and the
queue consumer handler of `src/server.ts`.

Conventions of the embedding:
* TypeScript `async` methods returning `Promise<void>` that may throw are
  modelled as total functions into `Except JSError Unit`.
* The ambient clock (`new Date()`) is passed explicitly as a `JSDate`.
* The external `fetch` is passed explicitly as an oracle
  `FetchRequest → FetchResult`.
* Effects that matter to the specification (which processor was invoked, which
  HTTP requests were issued, which transport calls were made) are returned as
  explicit traces alongside the result.
-/

/-- The `QueueMessageType` enum of `queue.ts` (six string values). -/
inductive QueueMessageType where
  | webhook
  | email
  | notification
  | task
  | analytics
  | custom
deriving DecidableEq, Repr

/-- The string value of each enum member, as it appears in template literals
such as backtick-interpolated `Invalid message type` errors. -/
def tagToString : QueueMessageType → String
  | .webhook => "webhook"
  | .email => "email"
  | .notification => "notification"
  | .task => "task"
  | .analytics => "analytics"
  | .custom => "custom"

/-- A JSON-like model of TypeScript `unknown` values (used for `custom` data,
task payloads and analytics properties). `null` also stands for `undefined`. -/
inductive JSValue where
  | null
  | bool (b : Bool)
  | num (n : Int)
  | str (s : String)
  | arr (xs : List JSValue)
  | obj (fields : List (String × JSValue))

/-- The `priority` field of a notification: `"low" | "medium" | "high"`. -/
inductive Priority where
  | low
  | medium
  | high
deriving DecidableEq, Repr

/-- Payload of `WebhookMessage.data`. -/
structure WebhookData where
  url : String
  method : String
  headers : List (String × String)
  body : Option String

/-- Payload of `EmailMessage.data` (`to` and `from` are Lean keywords, kept
as `toAddr` and `fromAddr`). -/
structure EmailData where
  toAddr : String
  fromAddr : String
  subject : String
  body : String
  html : Option String

/-- Payload of `NotificationMessage.data`. -/
structure NotificationData where
  userId : String
  title : String
  message : String
  priority : Priority

/-- Payload of `TaskMessage.data`. -/
structure TaskData where
  taskId : String
  action : String
  payload : List (String × JSValue)

/-- Payload of `AnalyticsMessage.data`. -/
structure AnalyticsData where
  event : String
  properties : List (String × JSValue)
  userId : Option String

/-- The `data : unknown` field of a `QueueMessage`, restricted to the payload
shapes the pipeline constructs: the five declared shapes plus an opaque value
for `custom` messages. -/
inductive MessageData where
  | webhookData (d : WebhookData)
  | emailData (d : EmailData)
  | notificationData (d : NotificationData)
  | taskData (d : TaskData)
  | analyticsData (d : AnalyticsData)
  | customData (v : JSValue)

/-- The tag that a payload shape belongs to (`customData` carries the opaque
`custom` payload). -/
def MessageData.tag : MessageData → QueueMessageType
  | .webhookData _ => .webhook
  | .emailData _ => .email
  | .notificationData _ => .notification
  | .taskData _ => .task
  | .analyticsData _ => .analytics
  | .customData _ => .custom

/-- Destructuring `const { a, b } = x` throws a `TypeError` in JavaScript
exactly when `x` is `null`/`undefined`; in this model only a `custom` payload
can be such a value. -/
def MessageData.isNullish : MessageData → Bool
  | .customData .null => true
  | _ => false

/-- The `QueueMessage` envelope interface of `queue.ts`. -/
structure QueueMessage where
  type : QueueMessageType
  timestamp : String
  data : MessageData
  metadata : Option (List (String × String))

/-- An envelope conforming to the data model of the specification: the shape
of `data` corresponds to `type` (§3: "`type` and `data` shape must always
correspond"). -/
def QueueMessage.WellFormed (m : QueueMessage) : Prop :=
  m.data.tag = m.type

instance (m : QueueMessage) : Decidable m.WellFormed := by
  unfold QueueMessage.WellFormed
  infer_instance

/-! ## The clock and `Date.prototype.toISOString` -/

/-- The components of a JavaScript `Date` at the moment `new Date()` is
evaluated. -/
structure JSDate where
  year : Nat
  month : Nat
  day : Nat
  hour : Nat
  minute : Nat
  second : Nat
  millis : Nat

/-- Componentwise validity of a real clock reading (JavaScript dates in the
four-digit-year era; years ≥ 10000 use the expanded format, outside this
model). -/
def JSDate.Valid (d : JSDate) : Prop :=
  d.year < 10000 ∧ 1 ≤ d.month ∧ d.month ≤ 12 ∧ 1 ≤ d.day ∧ d.day ≤ 31 ∧
    d.hour ≤ 23 ∧ d.minute ≤ 59 ∧ d.second ≤ 59 ∧ d.millis < 1000

/-- The decimal digit character of `n % 10`. -/
def digit (n : Nat) : Char := Nat.digitChar (n % 10)

/-- Two-digit zero-padded field. -/
def pad2 (n : Nat) : List Char := [digit (n / 10), digit n]

/-- Three-digit zero-padded field. -/
def pad3 (n : Nat) : List Char := [digit (n / 100), digit (n / 10), digit n]

/-- Four-digit zero-padded field. -/
def pad4 (n : Nat) : List Char := [digit (n / 1000), digit (n / 100), digit (n / 10), digit n]

/-- `Date.prototype.toISOString`: the 24-character
`YYYY-MM-DDTHH:mm:ss.sssZ` rendering of the date. -/
def JSDate.toISOString (d : JSDate) : String :=
  String.mk (pad4 d.year ++ '-' :: pad2 d.month ++ '-' :: pad2 d.day ++
    'T' :: pad2 d.hour ++ ':' :: pad2 d.minute ++ ':' :: pad2 d.second ++
    '.' :: pad3 d.millis ++ ['Z'])

/-- Numeric value of a digit character. -/
def digitToNat (c : Char) : Nat := c.toNat - 48

/-- Value of a two-digit field. -/
def twoVal (c1 c2 : Char) : Nat := digitToNat c1 * 10 + digitToNat c2

/-- An ISO-8601 parser for the `toISOString` profile: 24 characters, the
separators in place, digits in the numeric positions, and the month, day,
hour, minute and second fields in range. -/
def isValidISO8601 (s : String) : Bool :=
  match s.toList with
  | y1 :: y2 :: y3 :: y4 :: c1 :: mo1 :: mo2 :: c2 :: d1 :: d2 :: c3 ::
      h1 :: h2 :: c4 :: mi1 :: mi2 :: c5 :: s1 :: s2 :: c6 ::
      f1 :: f2 :: f3 :: c7 :: rest =>
    rest.isEmpty && (c1 == '-') && (c2 == '-') && (c3 == 'T') && (c4 == ':') &&
      (c5 == ':') && (c6 == '.') && (c7 == 'Z') &&
      ([y1, y2, y3, y4, mo1, mo2, d1, d2, h1, h2, mi1, mi2, s1, s2,
        f1, f2, f3].all Char.isDigit) &&
      decide (1 ≤ twoVal mo1 mo2) && decide (twoVal mo1 mo2 ≤ 12) &&
      decide (1 ≤ twoVal d1 d2) && decide (twoVal d1 d2 ≤ 31) &&
      decide (twoVal h1 h2 ≤ 23) && decide (twoVal mi1 mi2 ≤ 59) &&
      decide (twoVal s1 s2 ≤ 59)
  | _ => false

theorem digitChar_isDigit_of_lt : ∀ k, k < 10 → (Nat.digitChar k).isDigit = true := by decide

theorem digitChar_val_of_lt : ∀ k, k < 10 → digitToNat (Nat.digitChar k) = k := by decide

theorem digit_isDigit (n : Nat) : (digit n).isDigit = true :=
  digitChar_isDigit_of_lt (n % 10) (Nat.mod_lt n (by omega))

theorem digitToNat_digit (n : Nat) : digitToNat (digit n) = n % 10 :=
  digitChar_val_of_lt (n % 10) (Nat.mod_lt n (by omega))

theorem twoVal_digits (n : Nat) (h : n < 100) :
    twoVal (digit (n / 10)) (digit n) = n := by
  unfold twoVal
  rw [digitToNat_digit, digitToNat_digit]
  omega

/-- A valid clock reading renders through `toISOString` to a string the
ISO-8601 checker accepts. -/
theorem toISOString_isValidISO8601 (d : JSDate) (h : d.Valid) :
    isValidISO8601 d.toISOString = true := by
  obtain ⟨hy, hmo1, hmo2, hd1, hd2, hh, hmi, hs, hms⟩ := h
  have hmo : twoVal (digit (d.month / 10)) (digit d.month) = d.month :=
    twoVal_digits _ (by omega)
  have hd : twoVal (digit (d.day / 10)) (digit d.day) = d.day :=
    twoVal_digits _ (by omega)
  have hho : twoVal (digit (d.hour / 10)) (digit d.hour) = d.hour :=
    twoVal_digits _ (by omega)
  have hmin : twoVal (digit (d.minute / 10)) (digit d.minute) = d.minute :=
    twoVal_digits _ (by omega)
  have hsec : twoVal (digit (d.second / 10)) (digit d.second) = d.second :=
    twoVal_digits _ (by omega)
  show isValidISO8601 (String.mk (pad4 d.year ++ '-' :: pad2 d.month ++
    '-' :: pad2 d.day ++ 'T' :: pad2 d.hour ++ ':' :: pad2 d.minute ++
    ':' :: pad2 d.second ++ '.' :: pad3 d.millis ++ ['Z'])) = true
  simp only [isValidISO8601, pad4, pad3, pad2, List.cons_append, List.nil_append,
    String.toList, List.isEmpty_nil, Bool.true_and, beq_self_eq_true,
    List.all_cons, List.all_nil, digit_isDigit, Bool.and_true, Bool.and_eq_true,
    decide_eq_true_eq]
  refine ⟨⟨⟨⟨⟨⟨?_, ?_⟩, ?_⟩, ?_⟩, ?_⟩, ?_⟩, ?_⟩ <;> omega

/-! ## Errors, `fetch`, and the concrete processors -/

/-- The JavaScript error values thrown by the pipeline: `new Error(message)`,
an engine `TypeError` (destructuring of a nullish value), and the opaque
transport-level errors `fetch` rejects with (DNS, connection, timeout). -/
inductive JSError where
  | jsError (message : String)
  | typeError (message : String)
  | netError (info : String)
deriving DecidableEq, Repr

/-- The request handed to `fetch` by the webhook processor: the envelope's
`url`, `method`, `headers`, and `body` (with a falsy body passed as
`undefined`). -/
structure FetchRequest where
  url : String
  method : String
  headers : List (String × String)
  body : Option String
deriving DecidableEq, Repr

/-- The outcome of a `fetch` call: a response with a status and a body text,
or a rejection with a transport-level error. -/
inductive FetchResult where
  | response (status : Nat) (body : String)
  | fetchThrow (e : JSError)

/-- The `body ? body : undefined` argument at the `fetch` call site: a falsy
body — absent, or the empty string — is passed as `undefined`. -/
def falsyBodyToUndefined (body : Option String) : Option String :=
  match body with
  | none => none
  | some s => if s = "" then none else some s

/-- `WebhookProcessor.process`, with `fetch` passed as an oracle. Returns the
result together with the list of HTTP requests issued. A tag mismatch throws
before any destructuring; the request body is `body ? body : undefined`;
`response.ok` is status 200–299; the non-ok branch throws `Error` with the
status and the response body; the `catch` block logs and rethrows the same
error, so it is the identity on the error value. The
tag-matching-but-wrong-shape cast (unreachable for well-formed envelopes) is
modelled as the engine `TypeError` that reading fields of a nullish `data`
raises. -/
def WebhookProcessor.process (fetchFn : FetchRequest → FetchResult)
    (message : QueueMessage) : Except JSError Unit × List FetchRequest :=
  if message.type ≠ QueueMessageType.webhook then
    (.error (.jsError ("Invalid message type: " ++ tagToString message.type)), [])
  else
    match message.data with
    | .webhookData d =>
      let req : FetchRequest :=
        ⟨d.url, d.method, d.headers, falsyBodyToUndefined d.body⟩
      match fetchFn req with
      | .response status body =>
        if 200 ≤ status ∧ status ≤ 299 then
          (.ok (), [req])
        else
          (.error (.jsError ("Webhook failed with status " ++ toString status ++
            ": " ++ body)), [req])
      | .fetchThrow e => (.error e, [req])
    | _ => (.error (.typeError "Cannot destructure webhook data"), [])

/-- `EmailProcessor.process`: placeholder that checks the tag, destructures
the data for logging, and returns success without an external side effect. -/
def EmailProcessor.process (message : QueueMessage) : Except JSError Unit :=
  if message.type ≠ QueueMessageType.email then
    .error (.jsError ("Invalid message type: " ++ tagToString message.type))
  else if message.data.isNullish then
    .error (.typeError "Cannot destructure email data")
  else
    .ok ()

/-- `NotificationProcessor.process`: placeholder, same discipline as email. -/
def NotificationProcessor.process (message : QueueMessage) : Except JSError Unit :=
  if message.type ≠ QueueMessageType.notification then
    .error (.jsError ("Invalid message type: " ++ tagToString message.type))
  else if message.data.isNullish then
    .error (.typeError "Cannot destructure notification data")
  else
    .ok ()

/-- `TaskProcessor.process`: placeholder, same discipline as email. -/
def TaskProcessor.process (message : QueueMessage) : Except JSError Unit :=
  if message.type ≠ QueueMessageType.task then
    .error (.jsError ("Invalid message type: " ++ tagToString message.type))
  else if message.data.isNullish then
    .error (.typeError "Cannot destructure task data")
  else
    .ok ()

/-- `AnalyticsProcessor.process`: placeholder, same discipline as email. -/
def AnalyticsProcessor.process (message : QueueMessage) : Except JSError Unit :=
  if message.type ≠ QueueMessageType.analytics then
    .error (.jsError ("Invalid message type: " ++ tagToString message.type))
  else if message.data.isNullish then
    .error (.typeError "Cannot destructure analytics data")
  else
    .ok ()

/-! ## The router -/

/-- A registered `MessageProcessor`: its `process` method as a function. -/
def Processor : Type := QueueMessage → Except JSError Unit

/-- `Map.prototype.set`: replace the binding in place if the key is present,
otherwise append it. -/
def mapSet {κ β : Type} [DecidableEq κ] (m : List (κ × β)) (k : κ) (v : β) :
    List (κ × β) :=
  match m with
  | [] => [(k, v)]
  | (k', v') :: rest => if k' = k then (k, v) :: rest else (k', v') :: mapSet rest k v

/-- `Map.prototype.get`: the value of the first (unique) binding of the key. -/
def mapGet {κ β : Type} [DecidableEq κ] (m : List (κ × β)) (k : κ) : Option β :=
  match m with
  | [] => none
  | (k', v') :: rest => if k' = k then some v' else mapGet rest k

/-- The `MessageRouter` state: its `processors` map. -/
structure MessageRouter where
  processors : List (QueueMessageType × Processor)

/-- `MessageRouter.registerProcessor`: `this.processors.set(type, processor)`. -/
def MessageRouter.registerProcessor (r : MessageRouter) (type : QueueMessageType)
    (processor : Processor) : MessageRouter :=
  { processors := mapSet r.processors type processor }

/-- The `MessageRouter` constructor: an empty map, then the five default
processors registered via `registerProcessor`. The webhook default closes
over the ambient `fetch`. -/
def MessageRouter.new (fetchFn : FetchRequest → FetchResult) : MessageRouter :=
  ((((({ processors := [] } : MessageRouter).registerProcessor
    QueueMessageType.webhook
      (fun m => (WebhookProcessor.process fetchFn m).1)).registerProcessor
    QueueMessageType.email EmailProcessor.process).registerProcessor
    QueueMessageType.notification NotificationProcessor.process).registerProcessor
    QueueMessageType.task TaskProcessor.process).registerProcessor
    QueueMessageType.analytics AnalyticsProcessor.process

/-- `MessageRouter.processMessage`, instrumented with the list of processor
invocations performed. No processor registered: warn and return successfully,
invoking nothing. Otherwise invoke the processor; the `catch` block logs and
rethrows the same error. -/
def MessageRouter.processMessageT (r : MessageRouter) (message : QueueMessage) :
    Except JSError Unit × List (Processor × QueueMessage) :=
  match mapGet r.processors message.type with
  | none => (.ok (), [])
  | some processor =>
    match processor message with
    | .ok _ => (.ok (), [(processor, message)])
    | .error e => (.error e, [(processor, message)])

/-- The result of `processMessage` (the promise the caller awaits). -/
def MessageRouter.processMessage (r : MessageRouter) (message : QueueMessage) :
    Except JSError Unit :=
  (r.processMessageT message).1

/-- Whether a settled promise was rejected. -/
def isRejected (res : Except JSError Unit) : Bool :=
  match res with
  | .error _ => true
  | .ok _ => false

/-- The aggregate that `processBatch` computes and reports: the count of
failures out of the total. -/
structure BatchReport where
  failures : Nat
  total : Nat
deriving DecidableEq, Repr

/-- `MessageRouter.processBatch`, instrumented with the concatenated
invocation traces: `Promise.allSettled` over `processMessage` of every
message, then the count of rejected results out of the batch size. It never
rethrows. -/
def MessageRouter.processBatchT (r : MessageRouter) (messages : List QueueMessage) :
    BatchReport × List (Processor × QueueMessage) :=
  let settled := messages.map (fun m => r.processMessageT m)
  let failures := (settled.filter (fun s => isRejected s.1)).length
  (⟨failures, messages.length⟩, settled.flatMap (fun s => s.2))

/-- The report of `processBatch`. -/
def MessageRouter.processBatch (r : MessageRouter) (messages : List QueueMessage) :
    BatchReport :=
  (r.processBatchT messages).1

/-! ## The producer (`QueueManager`) -/

/-- `QueueSendOptions` of the Cloudflare Queues producer API (the fields the
core can forward; opaque to this pipeline). -/
structure QueueSendOptions where
  delaySeconds : Option Nat
  contentTypeOpt : Option String
deriving DecidableEq, Repr

/-- One element of the `sendBatch` payload: `{ body: msg, ...options }`. -/
structure BatchEntry where
  body : QueueMessage
  delaySeconds : Option Nat
  contentTypeOpt : Option String

/-- The spread `{ body: msg, ...options }`: with `options` absent the entry
has only `body`; otherwise the option fields are copied in. -/
def mkBatchEntry (msg : QueueMessage) (options : Option QueueSendOptions) :
    BatchEntry :=
  match options with
  | none => ⟨msg, none, none⟩
  | some o => ⟨msg, o.delaySeconds, o.contentTypeOpt⟩

/-- A call on the external transport (`this.queue`). -/
inductive TransportCall where
  | send (message : QueueMessage) (options : Option QueueSendOptions)
  | sendBatch (entries : List BatchEntry)

/-- `QueueManager.send`: one `queue.send(message, options)` transport call. -/
def QueueManager.send (message : QueueMessage)
    (options : Option QueueSendOptions) : List TransportCall :=
  [TransportCall.send message options]

/-- `QueueManager.sendBatch`: one `queue.sendBatch` transport call whose
payload maps each message to `{ body: msg, ...options }` in order. -/
def QueueManager.sendBatch (messages : List QueueMessage)
    (options : Option QueueSendOptions) : List TransportCall :=
  [TransportCall.sendBatch (messages.map (fun msg => mkBatchEntry msg options))]

/-- `QueueManager.sendWebhook`: builds the `WebhookMessage` stamped with the
current clock and delegates to `send` (with no options). -/
def QueueManager.sendWebhook (now : JSDate) (url : String) (method : String)
    (headers : List (String × String)) (body : Option String)
    (metadata : Option (List (String × String))) :
    QueueMessage × List TransportCall :=
  let message : QueueMessage :=
    { type := QueueMessageType.webhook
      timestamp := now.toISOString
      data := MessageData.webhookData ⟨url, method, headers, body⟩
      metadata := metadata }
  (message, QueueManager.send message none)

/-- `QueueManager.sendEmail`. -/
def QueueManager.sendEmail (now : JSDate) (toAddr : String) (fromAddr : String)
    (subject : String) (body : String) (html : Option String)
    (metadata : Option (List (String × String))) :
    QueueMessage × List TransportCall :=
  let message : QueueMessage :=
    { type := QueueMessageType.email
      timestamp := now.toISOString
      data := MessageData.emailData ⟨toAddr, fromAddr, subject, body, html⟩
      metadata := metadata }
  (message, QueueManager.send message none)

/-- `QueueManager.sendNotification` (the TypeScript default for `priority` is
`"medium"`, supplied at the call site here). -/
def QueueManager.sendNotification (now : JSDate) (userId : String)
    (title : String) (messageText : String) (priority : Priority)
    (metadata : Option (List (String × String))) :
    QueueMessage × List TransportCall :=
  let message : QueueMessage :=
    { type := QueueMessageType.notification
      timestamp := now.toISOString
      data := MessageData.notificationData ⟨userId, title, messageText, priority⟩
      metadata := metadata }
  (message, QueueManager.send message none)

/-- `QueueManager.sendTask`. -/
def QueueManager.sendTask (now : JSDate) (taskId : String) (action : String)
    (payload : List (String × JSValue))
    (metadata : Option (List (String × String))) :
    QueueMessage × List TransportCall :=
  let message : QueueMessage :=
    { type := QueueMessageType.task
      timestamp := now.toISOString
      data := MessageData.taskData ⟨taskId, action, payload⟩
      metadata := metadata }
  (message, QueueManager.send message none)

/-- `QueueManager.sendAnalytics`. -/
def QueueManager.sendAnalytics (now : JSDate) (event : String)
    (properties : List (String × JSValue)) (userId : Option String)
    (metadata : Option (List (String × String))) :
    QueueMessage × List TransportCall :=
  let message : QueueMessage :=
    { type := QueueMessageType.analytics
      timestamp := now.toISOString
      data := MessageData.analyticsData ⟨event, properties, userId⟩
      metadata := metadata }
  (message, QueueManager.send message none)

/-- `QueueManager.sendCustom`. -/
def QueueManager.sendCustom (now : JSDate) (data : JSValue)
    (metadata : Option (List (String × String))) :
    QueueMessage × List TransportCall :=
  let message : QueueMessage :=
    { type := QueueMessageType.custom
      timestamp := now.toISOString
      data := MessageData.customData data
      metadata := metadata }
  (message, QueueManager.send message none)

/-! ## The consumer loop (`queue` handler of `server.ts`) -/

/-- The transport-level signal issued for one delivered message. -/
inductive Disposition where
  | acked
  | retried
deriving DecidableEq, Repr

/-- The `queue` handler of `server.ts`: a fresh `MessageRouter` for the batch,
then for each delivered message `processMessage` inside `try`, with `ack()` on
success and `retry()` in the `catch`. -/
def queueHandler (fetchFn : FetchRequest → FetchResult)
    (batch : List QueueMessage) : List Disposition :=
  let messageRouter := MessageRouter.new fetchFn
  batch.map (fun m =>
    match messageRouter.processMessage m with
    | .ok _ => Disposition.acked
    | .error _ => Disposition.retried)

/-! ## Helper lemmas -/

theorem mapGet_mapSet_self {κ β : Type} [DecidableEq κ]
    (m : List (κ × β)) (k : κ) (v : β) : mapGet (mapSet m k v) k = some v := by
  induction m with
  | nil => simp [mapSet, mapGet]
  | cons hd tl ih =>
    obtain ⟨k', v'⟩ := hd
    by_cases h : k' = k <;> simp [mapSet, mapGet, h, ih]

theorem mapGet_mapSet_ne {κ β : Type} [DecidableEq κ]
    (m : List (κ × β)) (k k' : κ) (v : β) (h : k' ≠ k) :
    mapGet (mapSet m k v) k' = mapGet m k' := by
  induction m with
  | nil =>
    have hne : ¬(k = k') := fun hc => h hc.symm
    simp [mapSet, mapGet, hne]
  | cons hd tl ih =>
    obtain ⟨k'', v''⟩ := hd
    by_cases h2 : k'' = k
    · subst h2
      have hne : ¬(k'' = k') := fun hc => h hc.symm
      simp [mapSet, mapGet, hne]
    · by_cases h3 : k'' = k'
      · subst h3
        simp [mapSet, mapGet, h2]
      · simp [mapSet, mapGet, h2, h3, ih]

theorem mapGet_mapSet_isSome {κ β : Type} [DecidableEq κ]
    (m : List (κ × β)) (k k' : κ) (v : β) (h : (mapGet m k').isSome = true) :
    (mapGet (mapSet m k v) k').isSome = true := by
  by_cases hk : k' = k
  · subst hk
    rw [mapGet_mapSet_self]
    rfl
  · rw [mapGet_mapSet_ne m k k' v hk]
    exact h

/-- Dispatch through a registered processor: the invocation trace is exactly
one call of that processor on the message, and the awaited result is the
processor's own result. -/
theorem processMessageT_of_registered (r : MessageRouter) (m : QueueMessage)
    (p : Processor) (h : mapGet r.processors m.type = some p) :
    (r.processMessageT m).1 = p m ∧ (r.processMessageT m).2 = [(p, m)] := by
  unfold MessageRouter.processMessageT
  rw [h]
  cases hp : p m with
  | ok u => simp [hp]
  | error e => simp [hp]

/-- Dispatch with no registered processor: resolve, invoke nothing. -/
theorem processMessageT_of_unregistered (r : MessageRouter) (m : QueueMessage)
    (h : mapGet r.processors m.type = none) :
    r.processMessageT m = (Except.ok (), []) := by
  unfold MessageRouter.processMessageT
  rw [h]

/-- A fresh router's registry has a default for exactly the five non-custom
tags. -/
theorem mapGet_new (f : FetchRequest → FetchResult) :
    mapGet (MessageRouter.new f).processors QueueMessageType.webhook =
      some (fun m => (WebhookProcessor.process f m).1) ∧
    mapGet (MessageRouter.new f).processors QueueMessageType.email =
      some EmailProcessor.process ∧
    mapGet (MessageRouter.new f).processors QueueMessageType.notification =
      some NotificationProcessor.process ∧
    mapGet (MessageRouter.new f).processors QueueMessageType.task =
      some TaskProcessor.process ∧
    mapGet (MessageRouter.new f).processors QueueMessageType.analytics =
      some AnalyticsProcessor.process ∧
    mapGet (MessageRouter.new f).processors QueueMessageType.custom = none := by
  refine ⟨rfl, rfl, rfl, rfl, rfl, rfl⟩

/-- C1: an envelope whose tag has no registered processor is dropped: the
dispatch resolves with no processor invocation; in particular a fresh router
drops every `custom` envelope this way. -/
theorem C1_unhandled_tag_is_dropped (r : MessageRouter) (m : QueueMessage)
    (f : FetchRequest → FetchResult) :
    (mapGet r.processors m.type = none →
      r.processMessageT m = (Except.ok (), [])) ∧
    (m.type = QueueMessageType.custom →
      (MessageRouter.new f).processMessageT m = (Except.ok (), [])) := by
  constructor
  · intro h
    exact processMessageT_of_unregistered r m h
  · intro h
    refine processMessageT_of_unregistered _ m ?_
    rw [h]
    exact (mapGet_new f).2.2.2.2.2

/-- C1 witness: a fresh router resolves a concrete `custom` envelope with an
empty invocation trace. -/
theorem C1_unhandled_tag_is_dropped_witness :
    (MessageRouter.new (fun _ => FetchResult.response 200 "")).processMessageT
      ⟨QueueMessageType.custom, "2026-10-11T00:00:00.000Z",
        MessageData.customData (JSValue.str "x"), none⟩ = (Except.ok (), []) :=
  (C1_unhandled_tag_is_dropped
    (MessageRouter.new (fun _ => FetchResult.response 200 ""))
    ⟨QueueMessageType.custom, "2026-10-11T00:00:00.000Z",
      MessageData.customData (JSValue.str "x"), none⟩
    (fun _ => FetchResult.response 200 "")).2 rfl

/-- C2: an envelope whose tag has a registered processor is dispatched to
exactly that processor, and the awaited result is the processor's own result:
success passes through, and a thrown error is propagated to the caller
unchanged. -/
theorem C2_registered_tag_dispatches (r : MessageRouter) (m : QueueMessage)
    (p : Processor) (h : mapGet r.processors m.type = some p) :
    (r.processMessageT m).2 = [(p, m)] ∧
    r.processMessage m = p m ∧
    (p m = Except.ok () → r.processMessage m = Except.ok ()) ∧
    (∀ e, p m = Except.error e → r.processMessage m = Except.error e) := by
  obtain ⟨h1, h2⟩ := processMessageT_of_registered r m p h
  refine ⟨h2, h1, ?_, ?_⟩
  · intro hp
    rw [MessageRouter.processMessage, h1, hp]
  · intro e hp
    rw [MessageRouter.processMessage, h1, hp]

/-- C2 witness: a router with a throwing processor registered for `custom`
propagates that exact thrown error on a concrete `custom` envelope. -/
theorem C2_registered_tag_dispatches_witness :
    (({ processors := [] } : MessageRouter).registerProcessor
        QueueMessageType.custom
        (fun _ => Except.error (JSError.jsError "boom"))).processMessage
      ⟨QueueMessageType.custom, "2026-10-11T00:00:00.000Z",
        MessageData.customData JSValue.null, none⟩ =
      Except.error (JSError.jsError "boom") :=
  (C2_registered_tag_dispatches
    (({ processors := [] } : MessageRouter).registerProcessor
      QueueMessageType.custom (fun _ => Except.error (JSError.jsError "boom")))
    ⟨QueueMessageType.custom, "2026-10-11T00:00:00.000Z",
      MessageData.customData JSValue.null, none⟩
    (fun _ => Except.error (JSError.jsError "boom")) rfl).2.2.2
    (JSError.jsError "boom") rfl

/-- C5: re-registering a tag overwrites (last write wins): after registering
`P1` then `P2` for `T`, dispatch for `T` resolves `P2` and invokes only `P2`,
and the registry for every other tag is untouched. -/
theorem C5_register_overwrites (r : MessageRouter) (T : QueueMessageType)
    (P1 P2 : Processor) (m : QueueMessage) :
    (m.type = T →
      mapGet ((r.registerProcessor T P1).registerProcessor T P2).processors
        m.type = some P2 ∧
      (((r.registerProcessor T P1).registerProcessor T P2).processMessageT m).2 =
        [(P2, m)] ∧
      ((r.registerProcessor T P1).registerProcessor T P2).processMessage m =
        P2 m) ∧
    (∀ t, t ≠ T →
      mapGet ((r.registerProcessor T P1).registerProcessor T P2).processors t =
        mapGet r.processors t) := by
  constructor
  · intro h
    have hget : mapGet ((r.registerProcessor T P1).registerProcessor T P2).processors
        m.type = some P2 := by
      rw [h]
      exact mapGet_mapSet_self _ T P2
    obtain ⟨h1, h2⟩ := processMessageT_of_registered _ m P2 hget
    exact ⟨hget, h2, h1⟩
  · intro t ht
    show mapGet (mapSet (mapSet r.processors T P1) T P2) t = mapGet r.processors t
    rw [mapGet_mapSet_ne _ T t P2 ht, mapGet_mapSet_ne _ T t P1 ht]

/-- C5 witness: on a concrete router, registering two processors for `custom`
in sequence dispatches a concrete `custom` envelope to the second one, and
the `webhook` entry is untouched. -/
theorem C5_register_overwrites_witness :
    ((({ processors := [] } : MessageRouter).registerProcessor
        QueueMessageType.custom (fun _ => Except.error (JSError.jsError "p1"))).registerProcessor
        QueueMessageType.custom (fun _ => Except.ok ())).processMessage
      ⟨QueueMessageType.custom, "2026-10-11T00:00:00.000Z",
        MessageData.customData JSValue.null, none⟩ = Except.ok () := by
  have h := (C5_register_overwrites ({ processors := [] } : MessageRouter)
    QueueMessageType.custom (fun _ => Except.error (JSError.jsError "p1"))
    (fun _ => Except.ok ())
    ⟨QueueMessageType.custom, "2026-10-11T00:00:00.000Z",
      MessageData.customData JSValue.null, none⟩).1 rfl
  exact h.2.2

/-- A sequence of `registerProcessor` calls applied to a router. -/
def applyRegistrations (r : MessageRouter)
    (regs : List (QueueMessageType × Processor)) : MessageRouter :=
  regs.foldl (fun acc tp => acc.registerProcessor tp.1 tp.2) r

theorem applyRegistrations_isSome (regs : List (QueueMessageType × Processor))
    (r : MessageRouter) (t : QueueMessageType)
    (h : (mapGet r.processors t).isSome = true) :
    (mapGet (applyRegistrations r regs).processors t).isSome = true := by
  induction regs generalizing r with
  | nil => exact h
  | cons hd tl ih =>
    exact ih (r.registerProcessor hd.1 hd.2)
      (mapGet_mapSet_isSome r.processors hd.1 t hd.2 h)

/-- C10: in every router state reachable from construction by any sequence of
`registerProcessor` calls, each of the five tags webhook, email, notification,
task and analytics still has a registered processor, so dispatch for those
tags never takes the unhandled-type drop path (it always invokes exactly one
processor). -/
theorem C10_default_tags_always_registered (f : FetchRequest → FetchResult)
    (regs : List (QueueMessageType × Processor)) (t : QueueMessageType)
    (h : t ∈ [QueueMessageType.webhook, QueueMessageType.email,
      QueueMessageType.notification, QueueMessageType.task,
      QueueMessageType.analytics]) :
    (mapGet (applyRegistrations (MessageRouter.new f) regs).processors t).isSome
      = true ∧
    ∀ m : QueueMessage, m.type = t →
      ((applyRegistrations (MessageRouter.new f) regs).processMessageT m).2.length
        = 1 := by
  have hbase : (mapGet (MessageRouter.new f).processors t).isSome = true := by
    obtain ⟨h1, h2, h3, h4, h5, _⟩ := mapGet_new f
    simp only [List.mem_cons, List.not_mem_nil, or_false] at h
    rcases h with h | h | h | h | h <;> subst h
    · rw [h1]; rfl
    · rw [h2]; rfl
    · rw [h3]; rfl
    · rw [h4]; rfl
    · rw [h5]; rfl
  have hsome := applyRegistrations_isSome regs (MessageRouter.new f) t hbase
  refine ⟨hsome, ?_⟩
  intro m hm
  have hsome2 : (mapGet (applyRegistrations (MessageRouter.new f) regs).processors
      m.type).isSome = true := by
    rw [hm]
    exact hsome
  obtain ⟨p, hp⟩ := Option.isSome_iff_exists.mp hsome2
  rw [(processMessageT_of_registered _ m p hp).2]
  rfl

/-- C10 witness: after overwriting `email` and adding a `custom` processor,
the `email` registry entry is still present and a concrete `email` envelope
is dispatched to exactly one processor. -/
theorem C10_default_tags_always_registered_witness :
    (mapGet (applyRegistrations
        (MessageRouter.new (fun _ => FetchResult.response 200 ""))
        [(QueueMessageType.email, fun _ => Except.ok ()),
         (QueueMessageType.custom, fun _ => Except.ok ())]).processors
      QueueMessageType.email).isSome = true ∧
    ((applyRegistrations
        (MessageRouter.new (fun _ => FetchResult.response 200 ""))
        [(QueueMessageType.email, fun _ => Except.ok ()),
         (QueueMessageType.custom, fun _ => Except.ok ())]).processMessageT
      ⟨QueueMessageType.email, "2026-10-11T00:00:00.000Z",
        MessageData.emailData ⟨"a@b.c", "d@e.f", "s", "b", none⟩,
        none⟩).2.length = 1 := by
  have h := C10_default_tags_always_registered
    (fun _ => FetchResult.response 200 "")
    [(QueueMessageType.email, fun _ => Except.ok ()),
     (QueueMessageType.custom, fun _ => Except.ok ())]
    QueueMessageType.email (by simp)
  exact ⟨h.1, h.2
    ⟨QueueMessageType.email, "2026-10-11T00:00:00.000Z",
      MessageData.emailData ⟨"a@b.c", "d@e.f", "s", "b", none⟩, none⟩ rfl⟩

theorem map_filter_length {α β : Type} (f : α → β) (p : β → Bool) (l : List α) :
    ((l.map f).filter p).length = l.countP (fun a => p (f a)) := by
  induction l with
  | nil => rfl
  | cons hd tl ih =>
    by_cases h : p (f hd) <;> simp [List.countP_cons, h, ih]

theorem map_flatMap {α β γ : Type} (f : α → β) (g : β → List γ) (l : List α) :
    (l.map f).flatMap g = l.flatMap (fun a => g (f a)) := by
  induction l with
  | nil => rfl
  | cons hd tl ih => simp [ih]

/-- C3: `processBatch` always completes with a report (it has no failure
outcome), every envelope of the list is attempted through `processMessage`
(the batch invocation trace is the concatenation of the per-message traces,
independent of sibling failures), and the reported aggregate counts exactly
the envelopes whose `processMessage` rejected, out of the list's length. -/
theorem C3_batch_isolation (r : MessageRouter) (messages : List QueueMessage) :
    (r.processBatch messages).total = messages.length ∧
    (r.processBatch messages).failures =
      messages.countP (fun m => isRejected (r.processMessage m)) ∧
    (r.processBatchT messages).2 =
      messages.flatMap (fun m => (r.processMessageT m).2) := by
  refine ⟨rfl, ?_, ?_⟩
  · exact map_filter_length (fun m => r.processMessageT m)
      (fun s => isRejected s.1) messages
  · exact map_flatMap (fun m => r.processMessageT m) (fun s => s.2) messages

/-- C8: the consumer loop maps each delivered message, via `processMessage`
on a fresh default router, to exactly one disposition: `ack` exactly when the
dispatch resolved, `retry` exactly when it threw; and the handler distributes
over batch concatenation, so one message's outcome never prevents the
remaining messages from being attempted. -/
theorem C8_consumer_ack_retry (f : FetchRequest → FetchResult)
    (batch : List QueueMessage) :
    List.Forall₂ (fun d m =>
        (d = Disposition.acked ↔
          (MessageRouter.new f).processMessage m = Except.ok ()) ∧
        (d = Disposition.retried ↔
          ∃ e, (MessageRouter.new f).processMessage m = Except.error e))
      (queueHandler f batch) batch ∧
    (queueHandler f batch).length = batch.length ∧
    (∀ b1 b2 : List QueueMessage,
      queueHandler f (b1 ++ b2) = queueHandler f b1 ++ queueHandler f b2) := by
  refine ⟨?_, ?_, ?_⟩
  · induction batch with
    | nil => exact List.Forall₂.nil
    | cons hd tl ih =>
      refine List.Forall₂.cons ?_ ih
      cases hres : (MessageRouter.new f).processMessage hd with
      | ok u =>
        cases u
        constructor
        · simp [queueHandler, hres]
        · simp [queueHandler, hres]
      | error e =>
        constructor
        · simp [queueHandler, hres]
        · simp [queueHandler, hres]
  · exact List.length_map batch _
  · intro b1 b2
    exact List.map_append _ b1 b2

/-- The `body` of a batch entry is the wrapped message, whatever the options. -/
theorem mkBatchEntry_body (msg : QueueMessage) (options : Option QueueSendOptions) :
    (mkBatchEntry msg options).body = msg := by
  cases options <;> rfl

/-- C9: `sendBatch` performs exactly one transport call, a `sendBatch` whose
payload wraps the caller's envelopes as `{ body: envelope, ...options }` in
the caller-supplied order; `send` performs exactly one transport `send` call.
There is no second call, retry, or local buffering in either operation. -/
theorem C9_one_transport_call (messages : List QueueMessage)
    (options : Option QueueSendOptions) :
    (QueueManager.sendBatch messages options).length = 1 ∧
    (∃ entries : List BatchEntry,
      QueueManager.sendBatch messages options = [TransportCall.sendBatch entries] ∧
      entries.map (fun e => e.body) = messages ∧
      ∀ i (h : i < entries.length) (h2 : i < messages.length),
        entries.get ⟨i, h⟩ = mkBatchEntry (messages.get ⟨i, h2⟩) options) ∧
    (∀ (m : QueueMessage) (o : Option QueueSendOptions),
      QueueManager.send m o = [TransportCall.send m o] ∧
      (QueueManager.send m o).length = 1) := by
  refine ⟨rfl, ⟨messages.map (fun msg => mkBatchEntry msg options), rfl, ?_, ?_⟩,
    fun m o => ⟨rfl, rfl⟩⟩
  · rw [List.map_map]
    have hcomp : ((fun e : BatchEntry => e.body) ∘ fun msg => mkBatchEntry msg options)
        = id := by
      funext msg
      exact mkBatchEntry_body msg options
    rw [hcomp, List.map_id]
  · intro i h h2
    simp [List.getElem_map]

/-- C9 witness: a concrete two-envelope batch is one `sendBatch` transport
call preserving the order, and a concrete `send` is one `send` call. -/
theorem C9_one_transport_call_witness :
    (QueueManager.sendBatch
      [⟨QueueMessageType.custom, "t1", MessageData.customData JSValue.null, none⟩,
       ⟨QueueMessageType.custom, "t2", MessageData.customData JSValue.null, none⟩]
      none).length = 1 ∧
    (QueueManager.send
      ⟨QueueMessageType.custom, "t1", MessageData.customData JSValue.null, none⟩
      none).length = 1 := by
  have h := C9_one_transport_call
    [⟨QueueMessageType.custom, "t1", MessageData.customData JSValue.null, none⟩,
     ⟨QueueMessageType.custom, "t2", MessageData.customData JSValue.null, none⟩]
    none
  exact ⟨h.1, (h.2.2
    ⟨QueueMessageType.custom, "t1", MessageData.customData JSValue.null, none⟩
    none).2⟩

/-- C4: each of the six per-tag convenience constructors hands `send` (with
no options) exactly the envelope whose `type` is the constructor's tag, whose
`data` is assembled from the typed parameters in the tag's declared shape,
whose `timestamp` is the ISO-8601 rendering of the creation-time clock (a
string the ISO-8601 checker accepts), and whose `metadata` is the one
supplied, when supplied. -/
theorem C4_constructors_build_well_formed_envelopes (now : JSDate)
    (hv : now.Valid) :
    isValidISO8601 now.toISOString = true ∧
    (∀ url method headers body metadata,
      QueueManager.sendWebhook now url method headers body metadata =
        ({ type := QueueMessageType.webhook, timestamp := now.toISOString,
           data := MessageData.webhookData ⟨url, method, headers, body⟩,
           metadata := metadata },
         [TransportCall.send
           { type := QueueMessageType.webhook, timestamp := now.toISOString,
             data := MessageData.webhookData ⟨url, method, headers, body⟩,
             metadata := metadata } none])) ∧
    (∀ toAddr fromAddr subject body html metadata,
      QueueManager.sendEmail now toAddr fromAddr subject body html metadata =
        ({ type := QueueMessageType.email, timestamp := now.toISOString,
           data := MessageData.emailData ⟨toAddr, fromAddr, subject, body, html⟩,
           metadata := metadata },
         [TransportCall.send
           { type := QueueMessageType.email, timestamp := now.toISOString,
             data := MessageData.emailData ⟨toAddr, fromAddr, subject, body, html⟩,
             metadata := metadata } none])) ∧
    (∀ userId title messageText priority metadata,
      QueueManager.sendNotification now userId title messageText priority metadata =
        ({ type := QueueMessageType.notification, timestamp := now.toISOString,
           data := MessageData.notificationData ⟨userId, title, messageText, priority⟩,
           metadata := metadata },
         [TransportCall.send
           { type := QueueMessageType.notification, timestamp := now.toISOString,
             data := MessageData.notificationData ⟨userId, title, messageText, priority⟩,
             metadata := metadata } none])) ∧
    (∀ taskId action payload metadata,
      QueueManager.sendTask now taskId action payload metadata =
        ({ type := QueueMessageType.task, timestamp := now.toISOString,
           data := MessageData.taskData ⟨taskId, action, payload⟩,
           metadata := metadata },
         [TransportCall.send
           { type := QueueMessageType.task, timestamp := now.toISOString,
             data := MessageData.taskData ⟨taskId, action, payload⟩,
             metadata := metadata } none])) ∧
    (∀ event properties userId metadata,
      QueueManager.sendAnalytics now event properties userId metadata =
        ({ type := QueueMessageType.analytics, timestamp := now.toISOString,
           data := MessageData.analyticsData ⟨event, properties, userId⟩,
           metadata := metadata },
         [TransportCall.send
           { type := QueueMessageType.analytics, timestamp := now.toISOString,
             data := MessageData.analyticsData ⟨event, properties, userId⟩,
             metadata := metadata } none])) ∧
    (∀ data metadata,
      QueueManager.sendCustom now data metadata =
        ({ type := QueueMessageType.custom, timestamp := now.toISOString,
           data := MessageData.customData data,
           metadata := metadata },
         [TransportCall.send
           { type := QueueMessageType.custom, timestamp := now.toISOString,
             data := MessageData.customData data,
             metadata := metadata } none])) :=
  ⟨toISOString_isValidISO8601 now hv,
    fun _ _ _ _ _ => rfl, fun _ _ _ _ _ _ => rfl, fun _ _ _ _ _ => rfl,
    fun _ _ _ _ => rfl, fun _ _ _ _ => rfl, fun _ _ => rfl⟩

/-- C4 witness: a concrete valid clock reading yields a checker-accepted
timestamp, and the concrete custom constructor stamps tag and payload. -/
theorem C4_constructors_build_well_formed_envelopes_witness :
    isValidISO8601 (JSDate.mk 2026 10 11 12 30 45 123).toISOString = true ∧
    (QueueManager.sendCustom (JSDate.mk 2026 10 11 12 30 45 123)
        (JSValue.str "payload") none).1.type = QueueMessageType.custom := by
  have h := C4_constructors_build_well_formed_envelopes
    (JSDate.mk 2026 10 11 12 30 45 123)
    (by refine ⟨?_, ?_, ?_, ?_, ?_, ?_, ?_, ?_, ?_⟩ <;> decide)
  refine ⟨h.1, ?_⟩
  rw [h.2.2.2.2.2.2 (JSValue.str "payload") none]

/-- Substring containment: `sub` occurs contiguously in `s`. -/
def containsStr (s sub : String) : Prop := ∃ pre post, s = pre ++ sub ++ post

/-- C6: on a webhook-tagged envelope, the webhook processor issues exactly one
HTTP request built from the envelope's `url`, `method`, `headers` and `body`
(the body passed through the call site's `body ? body : undefined` falsy
coercion); it resolves exactly when the response status is 2xx; any non-2xx
response makes it throw an `Error` whose message contains the status code and
the response body; and a transport-level `fetch` rejection is propagated as
the same failure. -/
theorem C6_webhook_processor (fetchFn : FetchRequest → FetchResult)
    (m : QueueMessage) (d : WebhookData)
    (htype : m.type = QueueMessageType.webhook)
    (hdata : m.data = MessageData.webhookData d) :
    (WebhookProcessor.process fetchFn m).2 =
      [⟨d.url, d.method, d.headers, falsyBodyToUndefined d.body⟩] ∧
    ((WebhookProcessor.process fetchFn m).1 = Except.ok () ↔
      ∃ st b, fetchFn ⟨d.url, d.method, d.headers, falsyBodyToUndefined d.body⟩ =
        FetchResult.response st b ∧ 200 ≤ st ∧ st ≤ 299) ∧
    (∀ st b, fetchFn ⟨d.url, d.method, d.headers, falsyBodyToUndefined d.body⟩ =
        FetchResult.response st b → ¬(200 ≤ st ∧ st ≤ 299) →
      (WebhookProcessor.process fetchFn m).1 = Except.error (JSError.jsError
        ("Webhook failed with status " ++ toString st ++ ": " ++ b)) ∧
      containsStr ("Webhook failed with status " ++ toString st ++ ": " ++ b)
        (toString st) ∧
      containsStr ("Webhook failed with status " ++ toString st ++ ": " ++ b) b) ∧
    (∀ e, fetchFn ⟨d.url, d.method, d.headers, falsyBodyToUndefined d.body⟩ = FetchResult.fetchThrow e →
      (WebhookProcessor.process fetchFn m).1 = Except.error e) := by
  have hred : WebhookProcessor.process fetchFn m =
      (match fetchFn ⟨d.url, d.method, d.headers, falsyBodyToUndefined d.body⟩ with
       | FetchResult.response status body =>
         if 200 ≤ status ∧ status ≤ 299 then
           (Except.ok (), [(⟨d.url, d.method, d.headers, falsyBodyToUndefined d.body⟩ : FetchRequest)])
         else
           (Except.error (JSError.jsError ("Webhook failed with status " ++
             toString status ++ ": " ++ body)),
            [(⟨d.url, d.method, d.headers, falsyBodyToUndefined d.body⟩ : FetchRequest)])
       | FetchResult.fetchThrow e =>
         (Except.error e, [(⟨d.url, d.method, d.headers, falsyBodyToUndefined d.body⟩ : FetchRequest)])) := by
    unfold WebhookProcessor.process
    rw [htype, hdata]
    simp
  refine ⟨?_, ⟨?_, ?_⟩, ?_, ?_⟩
  · rw [hred]
    cases hf : fetchFn ⟨d.url, d.method, d.headers, falsyBodyToUndefined d.body⟩ with
    | response st b => by_cases h2 : 200 ≤ st ∧ st ≤ 299 <;> simp [h2]
    | fetchThrow e => rfl
  · intro hok
    rw [hred] at hok
    cases hf : fetchFn ⟨d.url, d.method, d.headers, falsyBodyToUndefined d.body⟩ with
    | response st b =>
      rw [hf] at hok
      by_cases h2 : 200 ≤ st ∧ st ≤ 299
      · exact ⟨st, b, rfl, h2⟩
      · simp [h2] at hok
    | fetchThrow e =>
      rw [hf] at hok
      simp at hok
  · rintro ⟨st, b, hf, h2⟩
    rw [hred, hf]
    simp [h2]
  · intro st b hf h2
    refine ⟨?_, ?_, ?_⟩
    · rw [hred, hf]
      simp [h2]
    · exact ⟨"Webhook failed with status ", ": " ++ b, by rw [String.append_assoc]⟩
    · refine ⟨"Webhook failed with status " ++ toString st ++ ": ", "", ?_⟩
      simp
  · intro e hf
    rw [hred, hf]

/-- C6 witness: a mocked 500 response with body "boom" makes the processor
throw the error naming the status and the body, on a concrete well-formed
webhook envelope; and on an envelope with the falsy empty-string body, the
one issued request carries no body. -/
theorem C6_webhook_processor_witness :
    (WebhookProcessor.process (fun _ => FetchResult.response 500 "boom")
      ⟨QueueMessageType.webhook, "2026-10-11T00:00:00.000Z",
        MessageData.webhookData ⟨"https://example.com", "POST", [], none⟩,
        none⟩).1 =
      Except.error (JSError.jsError
        ("Webhook failed with status " ++ toString 500 ++ ": " ++ "boom")) ∧
    (WebhookProcessor.process (fun _ => FetchResult.response 200 "ok")
      ⟨QueueMessageType.webhook, "2026-10-11T00:00:00.000Z",
        MessageData.webhookData ⟨"https://example.com", "POST", [], some ""⟩,
        none⟩).2 =
      [⟨"https://example.com", "POST", [], none⟩] :=
  ⟨((C6_webhook_processor (fun _ => FetchResult.response 500 "boom")
    ⟨QueueMessageType.webhook, "2026-10-11T00:00:00.000Z",
      MessageData.webhookData ⟨"https://example.com", "POST", [], none⟩, none⟩
    ⟨"https://example.com", "POST", [], none⟩ rfl rfl).2.2.1 500 "boom" rfl
    (by decide)).1,
   (C6_webhook_processor (fun _ => FetchResult.response 200 "ok")
    ⟨QueueMessageType.webhook, "2026-10-11T00:00:00.000Z",
      MessageData.webhookData ⟨"https://example.com", "POST", [], some ""⟩, none⟩
    ⟨"https://example.com", "POST", [], some ""⟩ rfl rfl).1⟩

/-- A payload whose shape belongs to a non-custom tag is never nullish. -/
theorem isNullish_eq_false_of_tag (dat : MessageData) (t : QueueMessageType)
    (h : dat.tag = t) (hne : t ≠ QueueMessageType.custom) :
    dat.isNullish = false := by
  cases dat <;> simp_all [MessageData.tag, MessageData.isNullish]

/-- C7: every concrete processor throws (never silently no-ops) on an
envelope whose tag differs from its own expected tag; and each of the four
placeholder processors, on an envelope of the data model, resolves
successfully exactly when the envelope's tag is its expected tag. -/
theorem C7_tag_mismatch_fails_loudly :
    (∀ (f : FetchRequest → FetchResult) (m : QueueMessage),
      m.type ≠ QueueMessageType.webhook →
      (WebhookProcessor.process f m).1 = Except.error (JSError.jsError
        ("Invalid message type: " ++ tagToString m.type))) ∧
    (∀ m : QueueMessage, m.type ≠ QueueMessageType.email →
      EmailProcessor.process m = Except.error (JSError.jsError
        ("Invalid message type: " ++ tagToString m.type))) ∧
    (∀ m : QueueMessage, m.type ≠ QueueMessageType.notification →
      NotificationProcessor.process m = Except.error (JSError.jsError
        ("Invalid message type: " ++ tagToString m.type))) ∧
    (∀ m : QueueMessage, m.type ≠ QueueMessageType.task →
      TaskProcessor.process m = Except.error (JSError.jsError
        ("Invalid message type: " ++ tagToString m.type))) ∧
    (∀ m : QueueMessage, m.type ≠ QueueMessageType.analytics →
      AnalyticsProcessor.process m = Except.error (JSError.jsError
        ("Invalid message type: " ++ tagToString m.type))) ∧
    (∀ m : QueueMessage, m.WellFormed →
      (EmailProcessor.process m = Except.ok () ↔
        m.type = QueueMessageType.email)) ∧
    (∀ m : QueueMessage, m.WellFormed →
      (NotificationProcessor.process m = Except.ok () ↔
        m.type = QueueMessageType.notification)) ∧
    (∀ m : QueueMessage, m.WellFormed →
      (TaskProcessor.process m = Except.ok () ↔
        m.type = QueueMessageType.task)) ∧
    (∀ m : QueueMessage, m.WellFormed →
      (AnalyticsProcessor.process m = Except.ok () ↔
        m.type = QueueMessageType.analytics)) := by
  refine ⟨?_, ?_, ?_, ?_, ?_, ?_, ?_, ?_, ?_⟩
  · intro f m h
    simp [WebhookProcessor.process, h]
  · intro m h
    simp [EmailProcessor.process, h]
  · intro m h
    simp [NotificationProcessor.process, h]
  · intro m h
    simp [TaskProcessor.process, h]
  · intro m h
    simp [AnalyticsProcessor.process, h]
  · intro m hwf
    constructor
    · intro hok
      by_contra hne
      simp [EmailProcessor.process, hne] at hok
    · intro heq
      have hnull := isNullish_eq_false_of_tag m.data m.type hwf
        (by rw [heq]; intro hc; exact QueueMessageType.noConfusion hc)
      simp [EmailProcessor.process, heq, hnull]
  · intro m hwf
    constructor
    · intro hok
      by_contra hne
      simp [NotificationProcessor.process, hne] at hok
    · intro heq
      have hnull := isNullish_eq_false_of_tag m.data m.type hwf
        (by rw [heq]; intro hc; exact QueueMessageType.noConfusion hc)
      simp [NotificationProcessor.process, heq, hnull]
  · intro m hwf
    constructor
    · intro hok
      by_contra hne
      simp [TaskProcessor.process, hne] at hok
    · intro heq
      have hnull := isNullish_eq_false_of_tag m.data m.type hwf
        (by rw [heq]; intro hc; exact QueueMessageType.noConfusion hc)
      simp [TaskProcessor.process, heq, hnull]
  · intro m hwf
    constructor
    · intro hok
      by_contra hne
      simp [AnalyticsProcessor.process, hne] at hok
    · intro heq
      have hnull := isNullish_eq_false_of_tag m.data m.type hwf
        (by rw [heq]; intro hc; exact QueueMessageType.noConfusion hc)
      simp [AnalyticsProcessor.process, heq, hnull]

/-- C7 witness: the email placeholder throws on a concrete task-tagged
envelope and resolves on a concrete well-formed email envelope. -/
theorem C7_tag_mismatch_fails_loudly_witness :
    EmailProcessor.process
      ⟨QueueMessageType.task, "2026-10-11T00:00:00.000Z",
        MessageData.taskData ⟨"t1", "run", []⟩, none⟩ =
      Except.error (JSError.jsError ("Invalid message type: " ++
        tagToString QueueMessageType.task)) ∧
    EmailProcessor.process
      ⟨QueueMessageType.email, "2026-10-11T00:00:00.000Z",
        MessageData.emailData ⟨"a@b.c", "d@e.f", "hi", "body", none⟩, none⟩ =
      Except.ok () := by
  constructor
  · exact C7_tag_mismatch_fails_loudly.2.1
      ⟨QueueMessageType.task, "2026-10-11T00:00:00.000Z",
        MessageData.taskData ⟨"t1", "run", []⟩, none⟩
      (by intro hc; exact QueueMessageType.noConfusion hc)
  · exact (C7_tag_mismatch_fails_loudly.2.2.2.2.2.1
      ⟨QueueMessageType.email, "2026-10-11T00:00:00.000Z",
        MessageData.emailData ⟨"a@b.c", "d@e.f", "hi", "body", none⟩, none⟩
      rfl).mpr rfl

/-- C3 witness: a concrete batch of [ok, throws, ok] through a concrete
router completes with a report of exactly 1 failure out of 3, and all three
messages are attempted. -/
theorem C3_batch_isolation_witness :
    ((({ processors := [] } : MessageRouter).registerProcessor
        QueueMessageType.custom
        (fun m => if m.timestamp == "2" then
          Except.error (JSError.jsError "fail") else Except.ok ())).processBatch
      [⟨QueueMessageType.custom, "1", MessageData.customData JSValue.null, none⟩,
       ⟨QueueMessageType.custom, "2", MessageData.customData JSValue.null, none⟩,
       ⟨QueueMessageType.custom, "3", MessageData.customData JSValue.null, none⟩]).failures
      = 1 ∧
    ((({ processors := [] } : MessageRouter).registerProcessor
        QueueMessageType.custom
        (fun m => if m.timestamp == "2" then
          Except.error (JSError.jsError "fail") else Except.ok ())).processBatch
      [⟨QueueMessageType.custom, "1", MessageData.customData JSValue.null, none⟩,
       ⟨QueueMessageType.custom, "2", MessageData.customData JSValue.null, none⟩,
       ⟨QueueMessageType.custom, "3", MessageData.customData JSValue.null, none⟩]).total
      = 3 := by
  have h := C3_batch_isolation
    (({ processors := [] } : MessageRouter).registerProcessor
      QueueMessageType.custom
      (fun m => if m.timestamp == "2" then
        Except.error (JSError.jsError "fail") else Except.ok ()))
    [⟨QueueMessageType.custom, "1", MessageData.customData JSValue.null, none⟩,
     ⟨QueueMessageType.custom, "2", MessageData.customData JSValue.null, none⟩,
     ⟨QueueMessageType.custom, "3", MessageData.customData JSValue.null, none⟩]
  exact ⟨h.2.1.trans rfl, h.1.trans rfl⟩

/-- C8 witness: the consumer-loop theorem instantiated on a concrete
two-message batch (an unhandled `custom` message and an `email` message). -/
theorem C8_consumer_ack_retry_witness :
    List.Forall₂ (fun d m =>
        (d = Disposition.acked ↔
          (MessageRouter.new (fun _ => FetchResult.response 200 "")).processMessage
            m = Except.ok ()) ∧
        (d = Disposition.retried ↔
          ∃ e, (MessageRouter.new (fun _ => FetchResult.response 200 "")).processMessage
            m = Except.error e))
      (queueHandler (fun _ => FetchResult.response 200 "")
        [⟨QueueMessageType.custom, "1", MessageData.customData JSValue.null, none⟩,
         ⟨QueueMessageType.email, "2",
           MessageData.emailData ⟨"a@b.c", "d@e.f", "s", "b", none⟩, none⟩])
      [⟨QueueMessageType.custom, "1", MessageData.customData JSValue.null, none⟩,
       ⟨QueueMessageType.email, "2",
         MessageData.emailData ⟨"a@b.c", "d@e.f", "s", "b", none⟩, none⟩] :=
  (C8_consumer_ack_retry (fun _ => FetchResult.response 200 "")
    [⟨QueueMessageType.custom, "1", MessageData.customData JSValue.null, none⟩,
     ⟨QueueMessageType.email, "2",
       MessageData.emailData ⟨"a@b.c", "d@e.f", "s", "b", none⟩, none⟩]).1
